import Mathlib

/-!
Verification of the statistical-analysis core of
`src/research/analyze_results.py` (docker-internals-guide).

Shallow embedding conventions:
* Python floats are modelled as exact rationals (`ℚ`); `math.sqrt` is
  modelled with `Real.sqrt`, so standard deviations and confidence
  intervals live in `ℝ`.
* Python `round(x, k)` is modelled as exact round-half-to-even at the
  k-th decimal (`pyRound`).
* Python strings are modelled as `List Char`; `str.strip()` strips
  `Char.isWhitespace` characters from both ends.
* Python `float(s)` is modelled by `pyFloat`, the base-10 grammar of
  finite float literals (sign, digits with underscores, optional dot,
  optional exponent); the non-finite parses `inf`/`nan` have no rational
  value and are outside this model.
* The scipy backend of `mann_whitney_u` is an external library, not part
  of the repository: it is a parameter (`scipyU`) that yields the pair
  (U statistic, p-value).
-/

namespace Analyze

/-- Round-half-to-even to an integer, as Python's builtin `round` does. -/
def roundHalfEven {α : Type} [LinearOrderedField α] [FloorRing α] (x : α) : ℤ :=
  if x - ⌊x⌋ < 1/2 then ⌊x⌋
  else if (1 : α)/2 < x - ⌊x⌋ then ⌊x⌋ + 1
  else if Even ⌊x⌋ then ⌊x⌋ else ⌊x⌋ + 1

/-- Python `round(x, k)`: round-half-to-even at the k-th decimal place. -/
def pyRound {α : Type} [LinearOrderedField α] [FloorRing α] (k : ℕ) (x : α) : α :=
  ((roundHalfEven ((10 : α) ^ k * x) : ℤ) : α) / (10 : α) ^ k

/-- Python `sorted(values)` (ascending), line 76 of analyze_results.py. -/
def pySorted (l : List ℚ) : List ℚ :=
  l.insertionSort (· ≤ ·)

/-- Arithmetic mean `sum(values) / n`, line 75. -/
def meanQ (values : List ℚ) : ℚ :=
  values.sum / (values.length : ℚ)

/-- Median selection `sorted_vals[n // 2]`, line 77 (before rounding). -/
def medianQ (values : List ℚ) : ℚ :=
  (pySorted values).getD (values.length / 2) 0

/-- Bessel-corrected sample variance `sum((x-mean)**2) / (n-1)`, line 80. -/
def varianceQ (values : List ℚ) : ℚ :=
  (values.map (fun x => (x - meanQ values) ^ 2)).sum / ((values.length : ℚ) - 1)

/-- Python `min(values)` over a non-empty list (0 for the unused empty case). -/
def minQ : List ℚ → ℚ
  | [] => 0
  | x :: xs => xs.foldl min x

/-- Python `max(values)` over a non-empty list (0 for the unused empty case). -/
def maxQ : List ℚ → ℚ
  | [] => 0
  | x :: xs => xs.foldl max x

/-- Standard deviation, lines 79-83: `sqrt(variance)` when `n > 1`, else `0.0`. -/
noncomputable def stdR (values : List ℚ) : ℝ :=
  if 1 < values.length then Real.sqrt (varianceQ values) else 0

/-- 95% CI half-width, lines 85-94: bracket-selected critical value times
`std / sqrt(n)`. -/
noncomputable def ci95R (values : List ℚ) : ℝ :=
  if 30 ≤ values.length then 1.96 * stdR values / Real.sqrt (values.length : ℝ)
  else if 20 ≤ values.length then 2.045 * stdR values / Real.sqrt (values.length : ℝ)
  else if 10 ≤ values.length then 2.262 * stdR values / Real.sqrt (values.length : ℝ)
  else 2.776 * stdR values / Real.sqrt (values.length : ℝ)

/-- Python `str.strip()`: drop whitespace from both ends. -/
def pystrip (cs : List Char) : List Char :=
  ((cs.dropWhile Char.isWhitespace).reverse.dropWhile Char.isWhitespace).reverse

/-- Digit runs with Python underscore rules, tail part: every `_` must be
followed (and, via the context of `digitsValid`, preceded) by a digit. -/
def usDigits : List Char → Bool
  | [] => true
  | [c] => c.isDigit
  | c :: d :: rest =>
    if c = '_' then d.isDigit && usDigits (d :: rest)
    else c.isDigit && usDigits (d :: rest)

/-- A valid Python digit part: non-empty, starts with a digit, underscores
only between digits. -/
def digitsValid : List Char → Bool
  | [] => false
  | c :: rest => c.isDigit && usDigits rest

/-- Numeric value of a digit part, ignoring underscores. -/
def digitsVal (cs : List Char) : ℕ :=
  cs.foldl (fun acc c => if c = '_' then acc else 10 * acc + (c.toNat - '0'.toNat)) 0

/-- Split a list at the first character satisfying `p`; the second component
is `none` when no such character occurs. -/
def splitAtChar (p : Char → Bool) : List Char → List Char × Option (List Char)
  | [] => ([], none)
  | c :: rest =>
    if p c then ([], some rest)
    else
      let s := splitAtChar p rest
      (c :: s.1, s.2)

/-- Parse the mantissa of a float literal: `digits`, `digits.`, `.digits`
or `digits.digits`. -/
def parseMantissa (cs : List Char) : Option ℚ :=
  let s := splitAtChar (· = '.') cs
  match s.2 with
  | none => if digitsValid s.1 then some (digitsVal s.1 : ℚ) else none
  | some fp =>
    if fp.contains '.' then none
    else if (s.1.isEmpty || digitsValid s.1) && (fp.isEmpty || digitsValid fp)
            && !(s.1.isEmpty && fp.isEmpty) then
      some ((digitsVal s.1 : ℚ) + (digitsVal fp : ℚ) / 10 ^ (fp.filter (· ≠ '_')).length)
    else none

/-- Parse a float-literal exponent: optional sign then a digit part. -/
def parseExp (cs : List Char) : Option ℤ :=
  match cs with
  | [] => none
  | c :: rest =>
    if c = '+' then (if digitsValid rest then some (digitsVal rest : ℤ) else none)
    else if c = '-' then (if digitsValid rest then some (-(digitsVal rest : ℤ)) else none)
    else if digitsValid (c :: rest) then some (digitsVal (c :: rest) : ℤ) else none

/-- Unsigned part of the float grammar: mantissa with optional `e`/`E`
exponent. -/
def pyFloatCore (cs : List Char) : Option ℚ :=
  let s := splitAtChar (fun c => c = 'e' || c = 'E') cs
  match s.2 with
  | none => parseMantissa s.1
  | some ecs =>
    match parseMantissa s.1 with
    | none => none
    | some m =>
      match parseExp ecs with
      | none => none
      | some e => some (m * (10 : ℚ) ^ e)

/-- Python `float(s)` for finite base-10 literals: surrounding whitespace,
optional sign, mantissa, optional exponent.  `inf`/`nan` have no rational
value and fall outside this model. -/
def pyFloat (cs0 : List Char) : Option ℚ :=
  match pystrip cs0 with
  | [] => none
  | c :: rest =>
    if c = '+' then pyFloatCore rest
    else if c = '-' then (pyFloatCore rest).map (fun q => -q)
    else pyFloatCore (c :: rest)

/-- The fixed ordered suffix list of `parse_float`, lines 54-55. -/
def unitSuffixes : List (List Char) :=
  [" ms".data, "ms".data, " MB/s".data, "MB/s".data, " MB".data, "MB".data,
   " KB".data, "KB".data, " MiB".data, "MiB".data, " GiB".data, "GiB".data,
   "%".data]

/-- One iteration of the suffix loop, lines 56-57: if the current value ends
with the suffix, cut it off and re-strip whitespace. -/
def stripSuffixStep (val suffix : List Char) : List Char :=
  if suffix.isSuffixOf val then pystrip (val.take (val.length - suffix.length))
  else val

/-- The whole suffix loop, lines 54-57: fold once over the fixed list; note
the Python loop has no `break`, so several suffixes can be removed. -/
def stripUnits (val : List Char) : List Char :=
  unitSuffixes.foldl stripSuffixStep val

/-- The missing-data sentinels of line 51: `''`, `'N/A'`, `'null'`, `'None'`. -/
def missingSentinels : List (List Char) :=
  [[], "N/A".data, "null".data, "None".data]

/-- `parse_float(val)`, lines 43-61 (string branch): strip, test the
sentinels, strip unit suffixes, then try `float`; any failure yields `none`. -/
def parse_float (s : List Char) : Option ℚ :=
  let val := pystrip s
  if missingSentinels.contains val then none
  else pyFloat (stripUnits val)

/-- The record returned by `compute_stats` (all fields already rounded,
as in lines 96-106). -/
structure Summary where
  n : ℕ
  mean : ℚ
  median : ℚ
  std : ℝ
  ci_95 : ℝ
  min : ℚ
  max : ℚ
  ci_lower : ℝ
  ci_upper : ℝ

/-- `compute_stats(values)`, lines 64-106: drop the `None` entries, return
`None` on an empty result, otherwise the rounded summary record. -/
noncomputable def compute_stats (input : List (Option ℚ)) : Option Summary :=
  let values := input.filterMap id
  if values = [] then none
  else some
    { n := values.length
      mean := pyRound 2 (meanQ values)
      median := pyRound 2 (medianQ values)
      std := pyRound 2 (stdR values)
      ci_95 := pyRound 2 (ci95R values)
      min := pyRound 2 (minQ values)
      max := pyRound 2 (maxQ values)
      ci_lower := pyRound 2 ((meanQ values : ℝ) - ci95R values)
      ci_upper := pyRound 2 ((meanQ values : ℝ) + ci95R values) }

/-- Effect-size label, lines 130-135: thresholds on `abs cliffs_d` with
strict upper bounds. -/
def effectSizeLabel (d : ℚ) : String :=
  if |d| < 0.147 then "negligible"
  else if |d| < 0.33 then "small"
  else if |d| < 0.474 then "medium"
  else "large"

/-- The record returned by `mann_whitney_u`, lines 125-136. -/
structure SigResult where
  u_statistic : ℚ
  p_value : ℚ
  significant : Bool
  cliffs_delta : ℚ
  effect_size : String

/-- `mann_whitney_u(group_a, group_b)`, lines 109-136, with scipy present:
the external `scipy_stats.mannwhitneyu` backend is the parameter `scipyU`
returning the pair (U statistic, p-value).  Either group shorter than 5
yields `none` before the backend is consulted. -/
def mann_whitney_u (scipyU : List ℚ → List ℚ → ℚ × ℚ)
    (group_a group_b : List ℚ) : Option SigResult :=
  if group_a.length < 5 ∨ group_b.length < 5 then none
  else
    let u_stat := (scipyU group_a group_b).1
    let p_value := (scipyU group_a group_b).2
    let cliffs_d := 2 * u_stat / ((group_a.length : ℚ) * (group_b.length : ℚ)) - 1
    some
      { u_statistic := pyRound 2 u_stat
        p_value := pyRound 6 p_value
        significant := decide (p_value < 0.05)
        cliffs_delta := pyRound 3 cliffs_d
        effect_size := effectSizeLabel cliffs_d }

/-- `check_all_zero(values)`, lines 164-171: true exactly when the list is
non-empty and every value equals `0.0`. -/
def check_all_zero (values : List ℚ) : Bool :=
  !values.isEmpty && values.all (fun v => v == 0)

/-- A row of `01-startup-latency.csv` as consumed by
`analyze_startup_latency` (string fields of a CSV `DictReader` row). -/
structure Row1 where
  image : List Char
  mode : List Char
  startup_ms : List Char

/-- The bucket built by the loop of lines 187-190 for one grouping key
`(image, mode)`: parsed `startup_ms` values of the rows with that key, in
row order. -/
def startupGroup (rows : List Row1) (key : List Char × List Char) : List ℚ :=
  rows.filterMap (fun r =>
    match parse_float r.startup_ms with
    | none => none
    | some v => if (r.image, r.mode) = key then some v else none)

/-- The summary `analyze_startup_latency` reports for one key, lines
192-199: `compute_stats` of the bucket, with no zero-value check. -/
noncomputable def startupSummary (rows : List Row1) (key : List Char × List Char) :
    Option Summary :=
  compute_stats ((startupGroup rows key).map some)

/-- A row of `02-copyup-overhead.csv` as consumed by `analyze_copyup`. -/
structure Row2 where
  copyup_ms : List Char

/-- The value list of `analyze_copyup`, line 212. -/
def copyupValues (rows : List Row2) : List ℚ :=
  rows.filterMap (fun r => parse_float r.copyup_ms)

/-- The summary `analyze_copyup` reports, lines 216-223: the all-zero check
suppresses the summary, otherwise `compute_stats` of the values. -/
noncomputable def copyupSummary (rows : List Row2) : Option Summary :=
  if check_all_zero (copyupValues rows) then none
  else compute_stats ((copyupValues rows).map some)

/-- A row of `04-write-performance.csv` as consumed by
`analyze_write_performance`. -/
structure Row4 where
  mode : List Char
  write_speed_mbps : List Char

/-- The bucket built by `analyze_write_performance` (lines 261-265) for one
`mode`: parsed `write_speed_mbps` values of the rows with that mode, in
row order. -/
def writeGroup (rows : List Row4) (mode : List Char) : List ℚ :=
  rows.filterMap (fun r =>
    match parse_float r.write_speed_mbps with
    | none => none
    | some v => if r.mode = mode then some v else none)

/-- The summary `analyze_write_performance` reports for one mode, lines
270-276: a flagged bucket is skipped (`continue`), otherwise
`compute_stats` of the bucket. -/
noncomputable def writeSummary (rows : List Row4) (mode : List Char) : Option Summary :=
  if check_all_zero (writeGroup rows mode) then none
  else compute_stats ((writeGroup rows mode).map some)

/-- A row of `05-metadata-operations.csv` as consumed by
`analyze_metadata`. -/
structure Row5 where
  mode : List Char
  duration_ms : List Char

/-- The bucket built by `analyze_metadata` (lines 303-307) for one `mode`:
parsed `duration_ms` values of the rows with that mode, in row order. -/
def metadataGroup (rows : List Row5) (mode : List Char) : List ℚ :=
  rows.filterMap (fun r =>
    match parse_float r.duration_ms with
    | none => none
    | some v => if r.mode = mode then some v else none)

/-- The summary `analyze_metadata` reports for one mode, lines 312-318: a
flagged bucket is skipped (`continue`), otherwise `compute_stats` of the
bucket. -/
noncomputable def metadataSummary (rows : List Row5) (mode : List Char) : Option Summary :=
  if check_all_zero (metadataGroup rows mode) then none
  else compute_stats ((metadataGroup rows mode).map some)

/-- Modelled from the spec (section 4.2 step 5): the CI critical-value
bracket as the spec words it, to be compared with the `ci95R` branch
structure of the code. -/
noncomputable def ciMultiplier (n : ℕ) : ℝ :=
  if 30 ≤ n then 1.96
  else if 20 ≤ n then 2.045
  else if 10 ≤ n then 2.262
  else 2.776

/-- Modelled from the spec (section 4.1): suffix stripping as the claim
words it — only the first matching suffix of the fixed list is removed and
no further suffixes are stripped after that first match. -/
def stripUnitsFirstMatch (val : List Char) : List Char :=
  match unitSuffixes.find? (fun suffix => suffix.isSuffixOf val) with
  | some suffix => pystrip (val.take (val.length - suffix.length))
  | none => val

/-- Sample count of an optional summary (0 when absent). -/
def nOf : Option Summary → ℕ
  | some s => s.n
  | none => 0

/-- Mean field of an optional summary (0 when absent). -/
def meanOf : Option Summary → ℚ
  | some s => s.mean
  | none => 0

/-- Median field of an optional summary (0 when absent). -/
def medianOf : Option Summary → ℚ
  | some s => s.median
  | none => 0

/-- ci_95 field of an optional summary (0 when absent). -/
def ci95Of : Option Summary → ℝ
  | some s => s.ci_95
  | none => 0

/-- ci_lower field of an optional summary (0 when absent). -/
def ciLowerOf : Option Summary → ℝ
  | some s => s.ci_lower
  | none => 0

/-- The three CSV rows of the end-to-end scenario of the spec:
`image=alpine, mode=warm, startup_ms ∈ {"100", "110", "105"}`. -/
def c1rows : List Row1 :=
  [⟨"alpine".data, "warm".data, "100".data⟩,
   ⟨"alpine".data, "warm".data, "110".data⟩,
   ⟨"alpine".data, "warm".data, "105".data⟩]

theorem filterMap_id_map_some (vs : List ℚ) : (vs.map some).filterMap id = vs := by
  induction vs with
  | nil => rfl
  | cons x xs ih => simp [ih]

theorem compute_stats_map_some (vs : List ℚ) (h : vs ≠ []) :
    compute_stats (vs.map some) = some
      { n := vs.length
        mean := pyRound 2 (meanQ vs)
        median := pyRound 2 (medianQ vs)
        std := pyRound 2 (stdR vs)
        ci_95 := pyRound 2 (ci95R vs)
        min := pyRound 2 (minQ vs)
        max := pyRound 2 (maxQ vs)
        ci_lower := pyRound 2 ((meanQ vs : ℝ) - ci95R vs)
        ci_upper := pyRound 2 ((meanQ vs : ℝ) + ci95R vs) } := by
  simp only [compute_stats, filterMap_id_map_some, if_neg h]

theorem roundHalfEven_ratCast (q : ℚ) : roundHalfEven (q : ℝ) = roundHalfEven q := by
  have hfloor : ⌊(q : ℝ)⌋ = ⌊q⌋ := Rat.floor_cast q
  have hsub : (q : ℝ) - ((⌊q⌋ : ℤ) : ℝ) = ((q - ⌊q⌋ : ℚ) : ℝ) := by
    push_cast
    ring
  have hhalf : (1 : ℝ)/2 = ((1/2 : ℚ) : ℝ) := by norm_num
  have h1 : ((q : ℝ) - ((⌊q⌋ : ℤ) : ℝ) < 1/2) ↔ (q - ⌊q⌋ < 1/2) := by
    rw [hsub, hhalf]
    exact Rat.cast_lt
  have h2 : ((1 : ℝ)/2 < (q : ℝ) - ((⌊q⌋ : ℤ) : ℝ)) ↔ ((1 : ℚ)/2 < q - ⌊q⌋) := by
    rw [hsub, hhalf]
    exact Rat.cast_lt
  simp only [roundHalfEven, h1, h2, hfloor]

theorem pyRound_ratCast (k : ℕ) (q : ℚ) :
    pyRound k (q : ℝ) = ((pyRound k q : ℚ) : ℝ) := by
  have hm : ((10 : ℝ) ^ k * (q : ℝ)) = (((10 ^ k * q : ℚ)) : ℝ) := by
    push_cast
    ring
  simp only [pyRound, hm, roundHalfEven_ratCast]
  push_cast
  ring

theorem abs_roundHalfEven_sub_le {α : Type} [LinearOrderedField α] [FloorRing α]
    (x : α) : |(roundHalfEven x : α) - x| ≤ 1/2 := by
  have h0 : (⌊x⌋ : α) ≤ x := Int.floor_le x
  have h1 : x < ⌊x⌋ + 1 := Int.lt_floor_add_one x
  unfold roundHalfEven
  split_ifs with a b c <;> push_cast <;> rw [abs_le] <;>
    exact ⟨by linarith, by linarith⟩

theorem abs_pyRound_sub_le {α : Type} [LinearOrderedField α] [FloorRing α]
    (k : ℕ) (x : α) : |pyRound k x - x| ≤ 1 / (2 * 10 ^ k) := by
  have hp : (0 : α) < 10 ^ k := by positivity
  have h := abs_roundHalfEven_sub_le ((10 : α) ^ k * x)
  have key : pyRound k x - x
      = (((roundHalfEven ((10 : α) ^ k * x) : ℤ) : α) - (10 : α) ^ k * x) / (10 : α) ^ k := by
    rw [pyRound]
    field_simp
  rw [key, abs_div, abs_of_pos hp, ← div_div]
  gcongr

theorem pyRound_zero {α : Type} [LinearOrderedField α] [FloorRing α] (k : ℕ) :
    pyRound k (0 : α) = 0 := by
  norm_num [pyRound, roundHalfEven]

theorem parse_float_sentinel (s : List Char)
    (h : pystrip s ∈ missingSentinels) : parse_float s = none := by
  simp [parse_float, h]

theorem parse_float_value (s : List Char)
    (h : pystrip s ∉ missingSentinels) :
    parse_float s = pyFloat (stripUnits (pystrip s)) := by
  simp [parse_float, h]

theorem pyFloat_unsigned (cs0 : List Char) (c : Char) (rest : List Char)
    (hstrip : pystrip cs0 = c :: rest) (hplus : c ≠ '+') (hminus : c ≠ '-') :
    pyFloat cs0 = pyFloatCore (c :: rest) := by
  unfold pyFloat
  rw [hstrip]
  simp [if_neg hplus, if_neg hminus]

theorem pyFloatCore_noexp (cs m : List Char)
    (hsplit : splitAtChar (fun c => c = 'e' || c = 'E') cs = (m, none)) :
    pyFloatCore cs = parseMantissa m := by
  simp [pyFloatCore, hsplit]

theorem pyFloatCore_exp_badmantissa (cs m ecs : List Char)
    (hsplit : splitAtChar (fun c => c = 'e' || c = 'E') cs = (m, some ecs))
    (hm : parseMantissa m = none) :
    pyFloatCore cs = none := by
  simp [pyFloatCore, hsplit, hm]

theorem parseMantissa_int (cs ip : List Char)
    (hsplit : splitAtChar (fun c => c = '.') cs = (ip, none))
    (hd : digitsValid ip = true) :
    parseMantissa cs = some (digitsVal ip : ℚ) := by
  simp [parseMantissa, hsplit, hd]

theorem parseMantissa_int_bad (cs ip : List Char)
    (hsplit : splitAtChar (fun c => c = '.') cs = (ip, none))
    (hd : digitsValid ip = false) :
    parseMantissa cs = none := by
  simp [parseMantissa, hsplit, hd]

theorem parseMantissa_frac (cs ip fp : List Char)
    (hsplit : splitAtChar (fun c => c = '.') cs = (ip, some fp))
    (hdot : '.' ∉ fp)
    (hip : digitsValid ip = true) (hfp : digitsValid fp = true)
    (hfpe : fp.isEmpty = false) :
    parseMantissa cs = some ((digitsVal ip : ℚ)
      + (digitsVal fp : ℚ) / 10 ^ (fp.filter (· ≠ '_')).length) := by
  simp [parseMantissa, hsplit, hdot, hip, hfp, hfpe]

theorem pyFloat_digitsValid (ip : List Char) (h3 : pystrip ip = ip)
    (h4 : splitAtChar (fun c => c = 'e' || c = 'E') ip = (ip, none))
    (h5 : splitAtChar (fun c => c = '.') ip = (ip, none))
    (h6 : digitsValid ip = true) :
    pyFloat ip = some (digitsVal ip : ℚ) := by
  cases ip with
  | nil => exact absurd h6 (by decide)
  | cons c rest =>
    have hc : c.isDigit = true := by
      have h7 := h6
      simp only [digitsValid, Bool.and_eq_true] at h7
      exact h7.1
    have hplus : c ≠ '+' := by
      intro h
      rw [h] at hc
      exact absurd hc (by decide)
    have hminus : c ≠ '-' := by
      intro h
      rw [h] at hc
      exact absurd hc (by decide)
    rw [pyFloat_unsigned (c :: rest) c rest h3 hplus hminus,
        pyFloatCore_noexp _ _ h4, parseMantissa_int _ _ h5 h6]

theorem parse_float_int_token (s ip : List Char)
    (h1 : pystrip s ∉ missingSentinels)
    (h2 : stripUnits (pystrip s) = ip)
    (h3 : pystrip ip = ip)
    (h4 : splitAtChar (fun c => c = 'e' || c = 'E') ip = (ip, none))
    (h5 : splitAtChar (fun c => c = '.') ip = (ip, none))
    (h6 : digitsValid ip = true) :
    parse_float s = some (digitsVal ip : ℚ) := by
  rw [parse_float_value s h1, h2, pyFloat_digitsValid ip h3 h4 h5 h6]

/-- C3: for every non-empty sequence the 95% CI half-width equals
multiplier × std / √n, where the multiplier is selected by sample-size
bracket: 1.96 for n ≥ 30, 2.045 for 20 ≤ n < 30, 2.262 for 10 ≤ n < 20,
2.776 for n < 10; the multiplier switches between n = 29 and n = 30. -/
theorem claim_C3 :
    (∀ values : List ℚ, values ≠ [] →
      ci95R values = ciMultiplier values.length * stdR values / Real.sqrt (values.length : ℝ))
    ∧ (∀ n : ℕ, 30 ≤ n → ciMultiplier n = 1.96)
    ∧ (∀ n : ℕ, 20 ≤ n → n < 30 → ciMultiplier n = 2.045)
    ∧ (∀ n : ℕ, 10 ≤ n → n < 20 → ciMultiplier n = 2.262)
    ∧ (∀ n : ℕ, n < 10 → ciMultiplier n = 2.776)
    ∧ ciMultiplier 29 ≠ ciMultiplier 30 := by
  refine ⟨?_, ?_, ?_, ?_, ?_, ?_⟩
  · intro values _
    unfold ci95R ciMultiplier
    split_ifs <;> rfl
  · intro n h
    unfold ciMultiplier
    rw [if_pos h]
  · intro n h1 h2
    unfold ciMultiplier
    rw [if_neg (by omega), if_pos h1]
  · intro n h1 h2
    unfold ciMultiplier
    rw [if_neg (by omega), if_neg (by omega), if_pos h1]
  · intro n h
    unfold ciMultiplier
    rw [if_neg (by omega), if_neg (by omega), if_neg (by omega)]
  · unfold ciMultiplier
    norm_num

theorem claim_C3_witness :
    (([(1 : ℚ), 2] : List ℚ) ≠ []
      ∧ ci95R [1, 2]
        = ciMultiplier ([(1 : ℚ), 2] : List ℚ).length * stdR [1, 2]
          / Real.sqrt ((([(1 : ℚ), 2] : List ℚ).length : ℝ)))
    ∧ ciMultiplier 30 = 1.96 ∧ ciMultiplier 25 = 2.045
    ∧ ciMultiplier 15 = 2.262 ∧ ciMultiplier 3 = 2.776 :=
  ⟨⟨by decide, claim_C3.1 [1, 2] (by decide)⟩,
   claim_C3.2.1 30 (by norm_num),
   claim_C3.2.2.1 25 (by norm_num) (by norm_num),
   claim_C3.2.2.2.1 15 (by norm_num) (by norm_num),
   claim_C3.2.2.2.2.1 3 (by norm_num)⟩

/-- C5: whenever either input group has fewer than 5 elements, the
significance test returns `none` ("not applicable") regardless of the
values and of the scipy backend, and it is a total function (no error). -/
theorem claim_C5 (scipyU : List ℚ → List ℚ → ℚ × ℚ) (group_a group_b : List ℚ)
    (h : group_a.length < 5 ∨ group_b.length < 5) :
    mann_whitney_u scipyU group_a group_b = none := by
  unfold mann_whitney_u
  rw [if_pos h]

theorem claim_C5_witness :
    (([(1 : ℚ)] : List ℚ).length < 5 ∨ ([(1 : ℚ), 2, 3, 4, 5] : List ℚ).length < 5)
    ∧ mann_whitney_u (fun _ _ => (0, 0)) [1] [1, 2, 3, 4, 5] = none :=
  ⟨Or.inl (by decide), claim_C5 _ _ _ (Or.inl (by decide))⟩

/-- C6: the effect-size label is determined by the absolute value of
Cliff's delta with strict upper bounds 0.147 / 0.33 / 0.474; the sample
points 0.10, 0.20, 0.40, 0.80 and the boundary 0.147 get the stated
labels, and the `effect_size` field of every `mann_whitney_u` result is
produced by exactly this rule from the unrounded delta. -/
theorem claim_C6 :
    (∀ d : ℚ, |d| < 0.147 → effectSizeLabel d = "negligible")
    ∧ (∀ d : ℚ, 0.147 ≤ |d| → |d| < 0.33 → effectSizeLabel d = "small")
    ∧ (∀ d : ℚ, 0.33 ≤ |d| → |d| < 0.474 → effectSizeLabel d = "medium")
    ∧ (∀ d : ℚ, 0.474 ≤ |d| → effectSizeLabel d = "large")
    ∧ effectSizeLabel 0.147 = "small"
    ∧ effectSizeLabel 0.10 = "negligible"
    ∧ effectSizeLabel 0.20 = "small"
    ∧ effectSizeLabel 0.40 = "medium"
    ∧ effectSizeLabel 0.80 = "large"
    ∧ (∀ (f : List ℚ → List ℚ → ℚ × ℚ) (a b : List ℚ) (r : SigResult),
        mann_whitney_u f a b = some r →
        r.effect_size
          = effectSizeLabel (2 * (f a b).1 / ((a.length : ℚ) * (b.length : ℚ)) - 1)) := by
  have hneg : ∀ d : ℚ, |d| < 0.147 → effectSizeLabel d = "negligible" := by
    intro d h
    unfold effectSizeLabel
    rw [if_pos h]
  have hsmall : ∀ d : ℚ, 0.147 ≤ |d| → |d| < 0.33 → effectSizeLabel d = "small" := by
    intro d h1 h2
    unfold effectSizeLabel
    rw [if_neg (not_lt.mpr h1), if_pos h2]
  have hmed : ∀ d : ℚ, 0.33 ≤ |d| → |d| < 0.474 → effectSizeLabel d = "medium" := by
    intro d h1 h2
    unfold effectSizeLabel
    rw [if_neg (not_lt.mpr (by linarith)), if_neg (not_lt.mpr h1), if_pos h2]
  have hlarge : ∀ d : ℚ, 0.474 ≤ |d| → effectSizeLabel d = "large" := by
    intro d h
    unfold effectSizeLabel
    rw [if_neg (not_lt.mpr (by linarith)), if_neg (not_lt.mpr (by linarith)),
      if_neg (not_lt.mpr h)]
  have habs : ∀ d : ℚ, 0 ≤ d → |d| = d := fun d hd => abs_of_nonneg hd
  refine ⟨hneg, hsmall, hmed, hlarge,
    hsmall 0.147 (le_abs_self 0.147) (by rw [habs 0.147 (by norm_num)]; norm_num),
    hneg 0.10 (by rw [habs 0.10 (by norm_num)]; norm_num),
    hsmall 0.20 (by rw [habs 0.20 (by norm_num)]; norm_num)
      (by rw [habs 0.20 (by norm_num)]; norm_num),
    hmed 0.40 (by rw [habs 0.40 (by norm_num)]; norm_num)
      (by rw [habs 0.40 (by norm_num)]; norm_num),
    hlarge 0.80 (by rw [habs 0.80 (by norm_num)]; norm_num), ?_⟩
  intro f a b r h
  by_cases hc : a.length < 5 ∨ b.length < 5
  · rw [claim_C5 f a b hc] at h
    exact absurd h (by simp)
  · simp only [mann_whitney_u, if_neg hc, Option.some.injEq] at h
    rw [← h]

theorem claim_C6_witness :
    (|(0.05 : ℚ)| < 0.147 ∧ effectSizeLabel 0.05 = "negligible")
    ∧ ((0.474 : ℚ) ≤ |(0.9 : ℚ)| ∧ effectSizeLabel 0.9 = "large") :=
  ⟨⟨by rw [abs_of_nonneg (by norm_num : (0 : ℚ) ≤ 0.05)]; norm_num,
    claim_C6.1 0.05 (by rw [abs_of_nonneg (by norm_num : (0 : ℚ) ≤ 0.05)]; norm_num)⟩,
   ⟨by rw [abs_of_nonneg (by norm_num : (0 : ℚ) ≤ 0.9)]; norm_num,
    claim_C6.2.2.2.1 0.9 (by rw [abs_of_nonneg (by norm_num : (0 : ℚ) ≤ 0.9)]; norm_num)⟩⟩

/-- C7: the value parser maps "42.5 ms" to 42.5, "695.2MB/s" to 695.2,
"N/A", "" and "garbage" to no-value; and whenever the text left after
suffix-stripping does not parse as a base-10 float, the parser returns
no-value (it is a total function, never an error). -/
theorem claim_C7 :
    parse_float "42.5 ms".data = some (42.5 : ℚ)
    ∧ parse_float "695.2MB/s".data = some (695.2 : ℚ)
    ∧ parse_float "N/A".data = none
    ∧ parse_float "".data = none
    ∧ parse_float "garbage".data = none
    ∧ (∀ s : List Char, pyFloat (stripUnits (pystrip s)) = none →
        parse_float s = none) := by
  have p1 : parse_float "42.5 ms".data = some (42.5 : ℚ) := by
    rw [parse_float_value _ (by decide),
        show stripUnits (pystrip "42.5 ms".data) = "42.5".data from by decide,
        pyFloat_unsigned _ '4' "2.5".data (by decide) (by decide) (by decide),
        pyFloatCore_noexp _ ("42.5".data) (by decide),
        parseMantissa_frac _ ("42".data) ("5".data) (by decide) (by decide)
          (by decide) (by decide) (by decide),
        show digitsVal "42".data = 42 from by decide,
        show digitsVal "5".data = 5 from by decide,
        show (("5".data).filter (· ≠ '_')).length = 1 from by decide]
    norm_num
  have p2 : parse_float "695.2MB/s".data = some (695.2 : ℚ) := by
    rw [parse_float_value _ (by decide),
        show stripUnits (pystrip "695.2MB/s".data) = "695.2".data from by decide,
        pyFloat_unsigned _ '6' "95.2".data (by decide) (by decide) (by decide),
        pyFloatCore_noexp _ ("695.2".data) (by decide),
        parseMantissa_frac _ ("695".data) ("2".data) (by decide) (by decide)
          (by decide) (by decide) (by decide),
        show digitsVal "695".data = 695 from by decide,
        show digitsVal "2".data = 2 from by decide,
        show (("2".data).filter (· ≠ '_')).length = 1 from by decide]
    norm_num
  have p5 : parse_float "garbage".data = none := by
    rw [parse_float_value _ (by decide),
        show stripUnits (pystrip "garbage".data) = "garbage".data from by decide,
        pyFloat_unsigned _ 'g' "arbage".data (by decide) (by decide) (by decide),
        pyFloatCore_exp_badmantissa _ ("garbag".data) [] (by decide)
          (parseMantissa_int_bad _ ("garbag".data) (by decide) (by decide))]
  refine ⟨p1, p2, parse_float_sentinel _ (by decide), parse_float_sentinel _ (by decide),
    p5, ?_⟩
  intro s h
  by_cases hs : pystrip s ∈ missingSentinels
  · exact parse_float_sentinel s hs
  · rw [parse_float_value s hs]
    exact h

theorem claim_C7_witness :
    pyFloat (stripUnits (pystrip "bogus".data)) = none
    ∧ parse_float "bogus".data = none := by
  have h : pyFloat (stripUnits (pystrip "bogus".data)) = none := by
    rw [show stripUnits (pystrip "bogus".data) = "bogus".data from by decide,
        pyFloat_unsigned _ 'b' "ogus".data (by decide) (by decide) (by decide),
        pyFloatCore_noexp _ ("bogus".data) (by decide),
        parseMantissa_int_bad _ ("bogus".data) (by decide) (by decide)]
  exact ⟨h, claim_C7.2.2.2.2.2 "bogus".data h⟩

/-- C2: for every non-empty input, the median field of the summary is the
element at index ⌊n/2⌋ of the sorted sequence (up to the 2-decimal output
rounding applied to every field); `pySorted` really is the sorted
rearrangement; and for [1,2,3,4] the median field equals 3 (the
upper-middle element), not 2.5. -/
theorem claim_C2 :
    (∀ vs : List ℚ, vs ≠ [] → ∃ s : Summary,
      compute_stats (vs.map some) = some s
      ∧ s.median = pyRound 2 ((pySorted vs).getD (vs.length / 2) 0))
    ∧ (∀ vs : List ℚ, List.Sorted (· ≤ ·) (pySorted vs) ∧ (pySorted vs).Perm vs)
    ∧ (compute_stats ([1, 2, 3, 4].map some)).map Summary.median = some 3
    ∧ (3 : ℚ) ≠ 2.5 := by
  refine ⟨?_, ?_, ?_, by norm_num⟩
  · intro vs h
    exact ⟨_, compute_stats_map_some vs h, rfl⟩
  · intro vs
    exact ⟨List.sorted_insertionSort _ vs, List.perm_insertionSort _ vs⟩
  · rw [compute_stats_map_some [1, 2, 3, 4] (by simp)]
    have hm : medianQ [1, 2, 3, 4] = 3 := by
      norm_num [medianQ, pySorted, List.insertionSort, List.orderedInsert]
    have hr : pyRound 2 (3 : ℚ) = 3 := by
      norm_num [pyRound, roundHalfEven]
    simp [hm, hr]

theorem claim_C2_witness :
    ([3, 1, 2] : List ℚ) ≠ []
    ∧ ∃ s : Summary, compute_stats (([3, 1, 2] : List ℚ).map some) = some s
        ∧ s.median = pyRound 2 ((pySorted [3, 1, 2]).getD ((([3, 1, 2] : List ℚ)).length / 2) 0) :=
  ⟨by simp, claim_C2.1 [3, 1, 2] (by simp)⟩

/-- C9: for n > 1 the std field is the (rounded) square root of the
Bessel-corrected variance (sum of squared deviations divided by n−1), and
for a single-element input both the std field and the ci_95 field are
exactly 0. -/
theorem claim_C9 :
    (∀ vs : List ℚ, 1 < vs.length → ∃ s : Summary,
      compute_stats (vs.map some) = some s
      ∧ s.std = pyRound 2 (Real.sqrt
          (((vs.map (fun x => (x - meanQ vs) ^ 2)).sum / ((vs.length : ℚ) - 1) : ℚ) : ℝ)))
    ∧ (∀ v : ℚ, ∃ s : Summary,
      compute_stats [some v] = some s ∧ s.std = 0 ∧ s.ci_95 = 0) := by
  constructor
  · intro vs h
    refine ⟨_, compute_stats_map_some vs (by rintro rfl; simp at h), ?_⟩
    unfold stdR
    rw [if_pos h]
    unfold varianceQ
    rfl
  · intro v
    have hmap : compute_stats [some v] = compute_stats (([v] : List ℚ).map some) := by
      simp
    have hs := compute_stats_map_some [v] (by simp)
    have hstd : stdR [v] = 0 := by
      simp [stdR]
    have hci : ci95R [v] = 0 := by
      norm_num [ci95R, hstd]
    refine ⟨_, hmap.trans hs, ?_, ?_⟩
    · simp [hstd, pyRound_zero]
    · simp [hci, pyRound_zero]

theorem claim_C9_witness :
    (1 < ([4, 8] : List ℚ).length
      ∧ ∃ s : Summary, compute_stats (([4, 8] : List ℚ).map some) = some s
        ∧ s.std = pyRound 2 (Real.sqrt
            (((([4, 8] : List ℚ).map (fun x => (x - meanQ [4, 8]) ^ 2)).sum
              / ((([4, 8] : List ℚ).length : ℚ) - 1) : ℚ) : ℝ)))
    ∧ ∃ s : Summary, compute_stats [some (7 : ℚ)] = some s ∧ s.std = 0 ∧ s.ci_95 = 0 :=
  ⟨⟨by simp, claim_C9.1 [4, 8] (by simp)⟩, claim_C9.2 7⟩

/-- C4 counterexample: for the input [2.002, 2.002, 2.002, -1.998] the
mean rounds to 1.0, ci_95 to 2.78, but ci_lower = round(1.002 - 2.776) =
-1.77 ≠ 1.0 - 2.78 = -1.78, so the equation between the rounded output
fields fails. -/
theorem claim_C4_counterexample :
    ciLowerOf (compute_stats (([2.002, 2.002, 2.002, -1.998] : List ℚ).map some))
      ≠ (meanOf (compute_stats (([2.002, 2.002, 2.002, -1.998] : List ℚ).map some)) : ℝ)
        - ci95Of (compute_stats (([2.002, 2.002, 2.002, -1.998] : List ℚ).map some)) := by
  have hne : ([2.002, 2.002, 2.002, -1.998] : List ℚ) ≠ [] := by simp
  rw [compute_stats_map_some _ hne]
  simp only [ciLowerOf, meanOf, ci95Of]
  have hmean : meanQ [2.002, 2.002, 2.002, -1.998] = 1.002 := by
    norm_num [meanQ]
  have hvar : varianceQ [2.002, 2.002, 2.002, -1.998] = 4 := by
    norm_num [varianceQ, meanQ]
  have hlen : ([2.002, 2.002, 2.002, -1.998] : List ℚ).length = 4 := by simp
  have hsq : Real.sqrt (4 : ℝ) = 2 := by
    rw [show (4 : ℝ) = (2 : ℝ) ^ 2 by norm_num]
    exact Real.sqrt_sq (by norm_num)
  have hstd : stdR [2.002, 2.002, 2.002, -1.998] = 2 := by
    unfold stdR
    rw [if_pos (by rw [hlen]; norm_num), hvar]
    rw [show ((4 : ℚ) : ℝ) = (4 : ℝ) by norm_num]
    exact hsq
  have hci : ci95R [2.002, 2.002, 2.002, -1.998] = 2.776 := by
    unfold ci95R
    rw [hlen, hstd]
    norm_num
    rw [hsq]
    norm_num
  rw [hmean, hci]
  rw [show ((1.002 : ℚ) : ℝ) - (2.776 : ℝ) = ((-1.774 : ℚ) : ℝ) by push_cast; norm_num]
  rw [show (2.776 : ℝ) = ((2.776 : ℚ) : ℝ) by norm_num]
  rw [pyRound_ratCast, pyRound_ratCast]
  rw [show pyRound 2 (-1.774 : ℚ) = -1.77 by norm_num [pyRound, roundHalfEven],
      show pyRound 2 (1.002 : ℚ) = 1 by norm_num [pyRound, roundHalfEven],
      show pyRound 2 (2.776 : ℚ) = 2.78 by norm_num [pyRound, roundHalfEven]]
  push_cast
  norm_num

/-- C4 amended: the ci_lower and ci_upper fields are the 2-decimal
roundings of (unrounded mean ∓ unrounded ci_95); since mean, ci_95 and the
bounds are rounded independently, the equations between the rounded
output fields hold only up to 0.015 (3/200) and can fail exactly (see the
counterexample). -/
theorem claim_C4_amended :
    ∀ vs : List ℚ, vs ≠ [] → ∃ s : Summary,
      compute_stats (vs.map some) = some s
      ∧ s.ci_lower = pyRound 2 ((meanQ vs : ℝ) - ci95R vs)
      ∧ s.ci_upper = pyRound 2 ((meanQ vs : ℝ) + ci95R vs)
      ∧ |s.ci_lower - ((s.mean : ℝ) - s.ci_95)| ≤ 3/200
      ∧ |s.ci_upper - ((s.mean : ℝ) + s.ci_95)| ≤ 3/200 := by
  intro vs h
  refine ⟨_, compute_stats_map_some vs h, rfl, rfl, ?_, ?_⟩
  all_goals
    simp only [← pyRound_ratCast]
    have hA := abs_pyRound_sub_le 2 ((meanQ vs : ℝ) - ci95R vs)
    have hB := abs_pyRound_sub_le 2 ((meanQ vs : ℝ) + ci95R vs)
    have hC := abs_pyRound_sub_le 2 ((meanQ vs : ℝ))
    have hD := abs_pyRound_sub_le 2 (ci95R vs)
    norm_num at hA hB hC hD
    rw [abs_le] at hA hB hC hD ⊢
    constructor <;> linarith [hA.1, hA.2, hB.1, hB.2, hC.1, hC.2, hD.1, hD.2]

theorem claim_C4_amended_witness :
    ([5] : List ℚ) ≠ []
    ∧ ∃ s : Summary,
      compute_stats (([5] : List ℚ).map some) = some s
      ∧ s.ci_lower = pyRound 2 ((meanQ [5] : ℝ) - ci95R [5])
      ∧ s.ci_upper = pyRound 2 ((meanQ [5] : ℝ) + ci95R [5])
      ∧ |s.ci_lower - ((s.mean : ℝ) - s.ci_95)| ≤ 3/200
      ∧ |s.ci_upper - ((s.mean : ℝ) + s.ci_95)| ≤ 3/200 :=
  ⟨by simp, claim_C4_amended [5] (by simp)⟩

/-- C1 counterexample: for the CSV rows of the scenario the grouped
summary for key (alpine, warm) has median 105, not 110 as the claim
states (sorted [100,105,110], index 3//2 = 1). -/
theorem claim_C1_counterexample :
    medianOf (startupSummary c1rows ("alpine".data, "warm".data)) ≠ 110 := by
  have p100 : parse_float "100".data = some (100 : ℚ) := by
    rw [parse_float_int_token "100".data "100".data (by decide) (by decide) (by decide)
        (by decide) (by decide) (by decide),
        show digitsVal "100".data = 100 from by decide]
    norm_num
  have p110 : parse_float "110".data = some (110 : ℚ) := by
    rw [parse_float_int_token "110".data "110".data (by decide) (by decide) (by decide)
        (by decide) (by decide) (by decide),
        show digitsVal "110".data = 110 from by decide]
    norm_num
  have p105 : parse_float "105".data = some (105 : ℚ) := by
    rw [parse_float_int_token "105".data "105".data (by decide) (by decide) (by decide)
        (by decide) (by decide) (by decide),
        show digitsVal "105".data = 105 from by decide]
    norm_num
  have hg : startupGroup c1rows ("alpine".data, "warm".data) = [100, 110, 105] := by
    simp [startupGroup, c1rows, p100, p110, p105]
  unfold startupSummary
  rw [hg, compute_stats_map_some _ (by simp)]
  have hm : medianQ [100, 110, 105] = 105 := by
    norm_num [medianQ, pySorted, List.insertionSort, List.orderedInsert]
  have hr : pyRound 2 (105 : ℚ) = 105 := by
    norm_num [pyRound, roundHalfEven]
  simp [medianOf, hm, hr]

/-- C1 amended: for the CSV rows [{alpine,warm,"100"}, {alpine,warm,"110"},
{alpine,warm,"105"}] the grouped summary for key (alpine, warm) has n = 3,
mean = 105.0, median = 105.0 (sorted index 3//2 = 1, not 110), and its
ci_95 is computed with multiplier 2.776. -/
theorem claim_C1_amended :
    nOf (startupSummary c1rows ("alpine".data, "warm".data)) = 3
    ∧ meanOf (startupSummary c1rows ("alpine".data, "warm".data)) = 105
    ∧ medianOf (startupSummary c1rows ("alpine".data, "warm".data)) = 105
    ∧ ci95R (startupGroup c1rows ("alpine".data, "warm".data))
      = 2.776 * stdR (startupGroup c1rows ("alpine".data, "warm".data))
        / Real.sqrt ((startupGroup c1rows ("alpine".data, "warm".data)).length : ℝ) := by
  have p100 : parse_float "100".data = some (100 : ℚ) := by
    rw [parse_float_int_token "100".data "100".data (by decide) (by decide) (by decide)
        (by decide) (by decide) (by decide),
        show digitsVal "100".data = 100 from by decide]
    norm_num
  have p110 : parse_float "110".data = some (110 : ℚ) := by
    rw [parse_float_int_token "110".data "110".data (by decide) (by decide) (by decide)
        (by decide) (by decide) (by decide),
        show digitsVal "110".data = 110 from by decide]
    norm_num
  have p105 : parse_float "105".data = some (105 : ℚ) := by
    rw [parse_float_int_token "105".data "105".data (by decide) (by decide) (by decide)
        (by decide) (by decide) (by decide),
        show digitsVal "105".data = 105 from by decide]
    norm_num
  have hg : startupGroup c1rows ("alpine".data, "warm".data) = [100, 110, 105] := by
    simp [startupGroup, c1rows, p100, p110, p105]
  have hsum : startupSummary c1rows ("alpine".data, "warm".data)
      = compute_stats (([100, 110, 105] : List ℚ).map some) := by
    unfold startupSummary
    rw [hg]
  rw [hsum, hg, compute_stats_map_some _ (by simp)]
  have hmean : meanQ [100, 110, 105] = 105 := by
    norm_num [meanQ]
  have hm : medianQ [100, 110, 105] = 105 := by
    norm_num [medianQ, pySorted, List.insertionSort, List.orderedInsert]
  have hr : pyRound 2 (105 : ℚ) = 105 := by
    norm_num [pyRound, roundHalfEven]
  refine ⟨rfl, ?_, ?_, ?_⟩
  · simp [meanOf, hmean, hr]
  · simp [medianOf, hm, hr]
  · unfold ci95R
    norm_num

/-- C8 counterexample: on input "5KBms" the real loop strips "ms" and then
also "KB" (two suffixes), parsing to 5.0, whereas the claimed
first-match-only rule would stop after "ms" and leave the unparseable
"5KB". -/
theorem claim_C8_counterexample :
    stripUnits "5KBms".data ≠ stripUnitsFirstMatch "5KBms".data
    ∧ stripUnits "5KBms".data = "5".data
    ∧ stripUnitsFirstMatch "5KBms".data = "5KB".data
    ∧ parse_float "5KBms".data = some (5 : ℚ) := by
  refine ⟨by decide, by decide, by decide, ?_⟩
  rw [parse_float_int_token "5KBms".data "5".data (by decide) (by decide) (by decide)
      (by decide) (by decide) (by decide),
      show digitsVal "5".data = 5 from by decide]
  norm_num

/-- C8 amended: the parser folds once over the fixed ordered suffix list;
each listed suffix that matches the current value at its turn is stripped
(with a whitespace re-strip), so several suffixes can be removed in list
order, as "5KBms" (stripped to "5") shows; the claimed
"no further suffixes after the first match" rule is not what the loop
does. -/
theorem claim_C8_amended :
    (∀ val suffix : List Char, suffix.isSuffixOf val = true →
      stripSuffixStep val suffix = pystrip (val.take (val.length - suffix.length)))
    ∧ (∀ val suffix : List Char, suffix.isSuffixOf val = false →
      stripSuffixStep val suffix = val)
    ∧ (∀ val : List Char, stripUnits val = unitSuffixes.foldl stripSuffixStep val)
    ∧ stripUnits "5KBms".data = "5".data
    ∧ stripUnitsFirstMatch "5KBms".data = "5KB".data := by
  refine ⟨?_, ?_, fun val => rfl, by decide, by decide⟩
  · intro val suffix h
    simp [stripSuffixStep, h]
  · intro val suffix h
    simp [stripSuffixStep, h]

theorem claim_C8_amended_witness :
    (" ms".data.isSuffixOf "42.5 ms".data = true)
    ∧ stripSuffixStep "42.5 ms".data " ms".data
      = pystrip ("42.5 ms".data.take ("42.5 ms".data.length - " ms".data.length)) :=
  ⟨by decide, claim_C8_amended.1 "42.5 ms".data " ms".data (by decide)⟩

/-- C10: `check_all_zero` flags exactly the non-empty all-zero value
lists, and every analyzer that invokes it — copy-up, write-performance
and metadata — reports no summary for a flagged bucket; buckets with any
non-zero value are not flagged.  (The startup-latency analyzer, however,
never invokes the check — see the counterexample.) -/
theorem claim_C10 :
    (∀ values : List ℚ, values ≠ [] → (∀ v ∈ values, v = 0) →
      check_all_zero values = true)
    ∧ (∀ values : List ℚ, (∃ v ∈ values, v ≠ 0) → check_all_zero values = false)
    ∧ (∀ rows : List Row2, check_all_zero (copyupValues rows) = true →
      copyupSummary rows = none)
    ∧ (∀ (rows : List Row4) (mode : List Char),
      check_all_zero (writeGroup rows mode) = true → writeSummary rows mode = none)
    ∧ (∀ (rows : List Row5) (mode : List Char),
      check_all_zero (metadataGroup rows mode) = true →
      metadataSummary rows mode = none) := by
  refine ⟨?_, ?_, ?_, ?_, ?_⟩
  · intro values h1 h2
    simp [check_all_zero, h1]
    exact h2
  · rintro values ⟨v, hv, hv0⟩
    simp only [check_all_zero, Bool.and_eq_false_iff]
    right
    simp only [List.all_eq_false]
    exact ⟨v, hv, by simpa using hv0⟩
  · intro rows h
    simp [copyupSummary, h]
  · intro rows mode h
    simp [writeSummary, h]
  · intro rows mode h
    simp [metadataSummary, h]

theorem claim_C10_witness :
    (([0, 0] : List ℚ) ≠ [] ∧ check_all_zero [0, 0] = true)
    ∧ ((∃ v ∈ ([0, 3] : List ℚ), v ≠ 0) ∧ check_all_zero [0, 3] = false)
    ∧ (check_all_zero (writeGroup [⟨"overlayfs".data, "0".data⟩] "overlayfs".data) = true
      ∧ writeSummary [⟨"overlayfs".data, "0".data⟩] "overlayfs".data = none)
    ∧ (check_all_zero (metadataGroup [⟨"volume".data, "0".data⟩] "volume".data) = true
      ∧ metadataSummary [⟨"volume".data, "0".data⟩] "volume".data = none) := by
  have p0 : parse_float "0".data = some (0 : ℚ) := by
    rw [parse_float_int_token "0".data "0".data (by decide) (by decide) (by decide)
        (by decide) (by decide) (by decide),
        show digitsVal "0".data = 0 from by decide]
    norm_num
  have hw : check_all_zero
      (writeGroup [⟨"overlayfs".data, "0".data⟩] "overlayfs".data) = true := by
    have hg : writeGroup [⟨"overlayfs".data, "0".data⟩] "overlayfs".data = [0] := by
      simp [writeGroup, p0]
    rw [hg]
    simp [check_all_zero]
  have hm : check_all_zero
      (metadataGroup [⟨"volume".data, "0".data⟩] "volume".data) = true := by
    have hg : metadataGroup [⟨"volume".data, "0".data⟩] "volume".data = [0] := by
      simp [metadataGroup, p0]
    rw [hg]
    simp [check_all_zero]
  exact ⟨⟨by simp, claim_C10.1 [0, 0] (by simp) (by simp)⟩,
    ⟨⟨3, by simp, by norm_num⟩, claim_C10.2.1 [0, 3] ⟨3, by simp, by norm_num⟩⟩,
    ⟨hw, claim_C10.2.2.2.1 _ _ hw⟩,
    ⟨hm, claim_C10.2.2.2.2 _ _ hm⟩⟩

/-- C10 counterexample: an all-zero startup-latency bucket (one row with
startup_ms = "0") is flagged by the zero check, yet
`analyze_startup_latency` never runs that check and still reports a
normal summary for the bucket. -/
theorem claim_C10_counterexample :
    check_all_zero (startupGroup [⟨"alpine".data, "warm".data, "0".data⟩]
        ("alpine".data, "warm".data)) = true
    ∧ startupSummary [⟨"alpine".data, "warm".data, "0".data⟩]
        ("alpine".data, "warm".data) ≠ none := by
  have p0 : parse_float "0".data = some (0 : ℚ) := by
    rw [parse_float_int_token "0".data "0".data (by decide) (by decide) (by decide)
        (by decide) (by decide) (by decide),
        show digitsVal "0".data = 0 from by decide]
    norm_num
  have hg : startupGroup [⟨"alpine".data, "warm".data, "0".data⟩]
      ("alpine".data, "warm".data) = [0] := by
    simp [startupGroup, p0]
  constructor
  · rw [hg]
    simp [check_all_zero]
  · unfold startupSummary
    rw [hg, compute_stats_map_some _ (by simp)]
    simp

end Analyze
